import Mathlib

/-!
Verification of the completion/diagnostics request-coordination layer of
`python/completers/cpp/clang_completer.py`.

The Python module is shallowly embedded: the editor (vim), the semantic
analysis engine (ycm_core) and the flags collaborator are modelled as an
explicit environment record, the `ClangCompleter` instance attributes as an
explicit state record, and each method as a pure function from environment
and state to new state plus observable effects (posted messages, dispatched
asynchronous operations, echoed text).  Python attribute errors (reading an
attribute that `__init__` never set) are modelled with an outer `Option` /
`Except` layer.
-/

set_option autoImplicit false

namespace ClangCompleterSpec

/-- `CLANG_FILETYPES = set([ 'c', 'cpp', 'objc', 'objcpp' ])`. -/
def CLANG_FILETYPES : List String := ["c", "cpp", "objc", "objcpp"]

/-- `ShouldUseClang( start_column )` from the source, with the implicit input
`vim.current.line` made explicit as a list of characters.  The Python code is

```
  previous_char_index = start_column - 1
  if ( not len( line ) or previous_char_index < 0 or
       previous_char_index >= len( line ) ): return False
  if line[ previous_char_index ] == '.': return True
  if previous_char_index - 1 < 0: return False
  two_previous_chars = line[ previous_char_index - 1 : start_column ]
  if ( two_previous_chars == '->' or two_previous_chars == '::' ): return True
  return False
```

`start_column` is an `Int` because the guard tests it against `0`; the local
`previous_char_index = start_column - 1` is written out inline.  The Python
slice `line[ previous_char_index - 1 : start_column ]` is translated as
drop-then-take (both slice bounds are in range when the slice is reached). -/
def ShouldUseClang (line : List Char) (start_column : Int) : Bool :=
  if line.length = 0 ∨ start_column - 1 < 0 ∨
      (line.length : Int) ≤ start_column - 1 then
    false
  else if line.getD (start_column - 1).toNat ' ' = '.' then
    true
  else if start_column - 1 - 1 < 0 then
    false
  else
    ((line.drop (start_column - 1 - 1).toNat).take
        (start_column - (start_column - 1 - 1)).toNat == ['-', '>'] ||
      (line.drop (start_column - 1 - 1).toNat).take
        (start_column - (start_column - 1 - 1)).toNat == [':', ':'])

/-- The trigger rule in the form the claim states it, but with the column
convention the code actually uses: the "character just before the cursor" is
the character at zero-based index `start_column - 1`, and the two-character
sequence ends at index `start_column - 1` inclusive. -/
def triggerRule (line : List Char) (start_column : Int) : Prop :=
  1 ≤ start_column ∧ start_column ≤ (line.length : Int) ∧
    (line.getD (start_column - 1).toNat ' ' = '.' ∨
      (2 ≤ start_column ∧
        ((line.getD (start_column - 2).toNat ' ' = '-' ∧
          line.getD (start_column - 1).toNat ' ' = '>') ∨
         (line.getD (start_column - 2).toNat ' ' = ':' ∧
          line.getD (start_column - 1).toNat ' ' = ':'))))

instance (line : List Char) (c : Int) : Decidable (triggerRule line c) := by
  unfold triggerRule; infer_instance

theorem take_two_cons (a b : Char) (t : List Char) : (a :: b :: t).take 2 = [a, b] :=
  rfl

theorem two_chars_of_drop_take (l : List Char) (i : Nat) (h : i + 1 < l.length) :
    (l.drop i).take 2 = [l.getD i ' ', l.getD (i + 1) ' '] := by
  have h0 : i < l.length := by omega
  rw [List.drop_eq_getElem_cons h0, List.drop_eq_getElem_cons h, take_two_cons]
  simp [List.getD_eq_getElem?_getD, List.getElem?_eq_getElem, h0, h]

theorem ShouldUseClang_iff (line : List Char) (c : Int) :
    ShouldUseClang line c = true ↔ triggerRule line c := by
  unfold ShouldUseClang triggerRule
  by_cases hrange : line.length = 0 ∨ c - 1 < 0 ∨ (line.length : Int) ≤ c - 1
  · rw [if_pos hrange]
    constructor
    · intro h; exact absurd h Bool.false_ne_true
    · rintro ⟨h1, h2, -⟩
      rcases hrange with h | h | h <;> omega
  · rw [if_neg hrange]
    push_neg at hrange
    obtain ⟨hne, hlo, hhi⟩ := hrange
    have hc1 : 1 ≤ c := by omega
    have hcle : c ≤ (line.length : Int) := by omega
    by_cases hdot : line.getD (c - 1).toNat ' ' = '.'
    · rw [if_pos hdot]
      constructor
      · intro _; exact ⟨hc1, hcle, Or.inl hdot⟩
      · intro _; rfl
    · rw [if_neg hdot]
      by_cases htwo : c - 1 - 1 < 0
      · rw [if_pos htwo]
        constructor
        · intro h; exact absurd h Bool.false_ne_true
        · rintro ⟨-, -, hd | ⟨h2, -⟩⟩
          · exact absurd hd hdot
          · omega
      · rw [if_neg htwo]
        have hc2 : 2 ≤ c := by omega
        have hidx : (c - 2).toNat + 1 < line.length := by omega
        have hsub : (c - 1 - 1).toNat = (c - 2).toNat := by omega
        have htk : (c - (c - 1 - 1)).toNat = 2 := by omega
        have hsucc : (c - 2).toNat + 1 = (c - 1).toNat := by omega
        rw [hsub, htk, two_chars_of_drop_take line (c - 2).toNat hidx, hsucc]
        constructor
        · intro h
          refine ⟨hc1, hcle, Or.inr ⟨hc2, ?_⟩⟩
          simp only [Bool.or_eq_true, beq_iff_eq, List.cons.injEq, and_true] at h
          rcases h with ⟨ha, hb⟩ | ⟨ha, hb⟩
          · exact Or.inl ⟨ha, hb⟩
          · exact Or.inr ⟨ha, hb⟩
        · rintro ⟨-, -, hd | ⟨-, h | h⟩⟩
          · exact absurd hd hdot
          · simp only [Bool.or_eq_true, beq_iff_eq, List.cons.injEq, and_true]
            exact Or.inl ⟨h.1, h.2⟩
          · simp only [Bool.or_eq_true, beq_iff_eq, List.cons.injEq, and_true]
            exact Or.inr ⟨h.1, h.2⟩

/-- Claim C1 (counterexample): the claim asserts `ShouldUseClang` returns
`true` for line `"foo."` at column 5 and for line `"foo->"` at column 6; the
code returns `false` for both (index `start_column - 1` is already past the
end of the line), and instead returns `true` one column earlier. -/
theorem claim_C1_counterexample :
    ShouldUseClang "foo.".toList 5 = false ∧
      ShouldUseClang "foo->".toList 6 = false := by
  constructor <;> rfl

/-- Claim C1 (amended): for every line and integer column `C`,
`ShouldUseClang` returns `true` iff `C - 1` is an in-range zero-based index,
and the character at index `C - 1` is `.` or the two characters at indices
`C - 2`, `C - 1` are `->` or `::`; it returns `false` for any out-of-range
`C`.  With this (zero-based cursor) convention the spec's examples shift by
one: line `"foo."` column 4 → true, line `"foo->"` column 5 → true, line
`"foo:"` column 4 → false (and column 5, out of range, is also false), line
`"f"` column 0 → false. -/
theorem claim_C1_amended :
    (∀ (line : List Char) (c : Int),
      ShouldUseClang line c = true ↔ triggerRule line c) ∧
    ShouldUseClang "foo.".toList 4 = true ∧
    ShouldUseClang "foo->".toList 5 = true ∧
    ShouldUseClang "foo:".toList 4 = false ∧
    ShouldUseClang "foo:".toList 5 = false ∧
    ShouldUseClang "f".toList 0 = false :=
  ⟨ShouldUseClang_iff, rfl, rfl, rfl, rfl, rfl⟩

/-- An open editor buffer as seen through `vimsupport.GetUnsavedBuffers()`:
its lines, its `name` attribute, and the filetype that
`ClangAvailableForBuffer` queries via `getbufvar(..., "&ft")`. -/
structure VimBuffer where
  lines : List String
  name : String
  filetype : String
deriving Repr, DecidableEq

/-- `ycm_core.UnsavedFile` with the three fields the source assigns. -/
structure UnsavedFile where
  contents_ : String
  length_ : Nat
  filename_ : String
deriving Repr, DecidableEq

/-- `ClangAvailableForBuffer( buffer_object )`: the buffer's filetype is in
`CLANG_FILETYPES`. -/
def ClangAvailableForBuffer (buffer_object : VimBuffer) : Bool :=
  CLANG_FILETYPES.contains buffer_object.filetype

/-- `contents = '\n'.join( buffer )` from `GetUnsavedFilesVector`. -/
def joinedContents (buffer : VimBuffer) : String :=
  String.intercalate "\n" buffer.lines

/-- One iteration of the `for buffer in vimsupport.GetUnsavedBuffers()` loop
of `GetUnsavedFilesVector`.  The accumulator is the triple
`(files, contents_holder, filename_holder)`; the `continue` branches leave
it unchanged, otherwise the contents and name are appended to the holder
lists and an `UnsavedFile` referring to them is appended to `files`. -/
def unsavedFilesStep (acc : List UnsavedFile × List String × List String)
    (buffer : VimBuffer) : List UnsavedFile × List String × List String :=
  if ¬ ClangAvailableForBuffer buffer then acc
  else if joinedContents buffer = "" ∨ buffer.name = "" then acc
  else
    (acc.1 ++ [⟨joinedContents buffer, (joinedContents buffer).length, buffer.name⟩],
     acc.2.1 ++ [joinedContents buffer],
     acc.2.2 ++ [buffer.name])

/-- `GetUnsavedFilesVector`.  The method starts from a fresh
`ycm_core.UnsavedFileVec()` and reassigns `self.contents_holder = []` and
`self.filename_holder = []`, so the fold starts from three empty lists; the
caller stores components 2 and 3 back into the completer state. -/
def GetUnsavedFilesVector (buffers : List VimBuffer) :
    List UnsavedFile × List String × List String :=
  buffers.foldl unsavedFilesStep ([], [], [])

/-- The inclusion condition of `GetUnsavedFilesVector`: supported filetype,
non-empty joined contents, non-empty name. -/
def qualifyingBuffer (buffer : VimBuffer) : Bool :=
  ClangAvailableForBuffer buffer && !(joinedContents buffer == "") &&
    !(buffer.name == "")

/-- The snapshot built for one qualifying buffer. -/
def bufferSnapshot (buffer : VimBuffer) : UnsavedFile :=
  ⟨joinedContents buffer, (joinedContents buffer).length, buffer.name⟩

theorem unsavedFilesStep_eq (acc : List UnsavedFile × List String × List String)
    (buffer : VimBuffer) :
    unsavedFilesStep acc buffer =
      if qualifyingBuffer buffer then
        (acc.1 ++ [bufferSnapshot buffer],
         acc.2.1 ++ [joinedContents buffer],
         acc.2.2 ++ [buffer.name])
      else acc := by
  unfold unsavedFilesStep qualifyingBuffer bufferSnapshot
  by_cases h1 : ClangAvailableForBuffer buffer
  · by_cases h2 : joinedContents buffer = "" ∨ buffer.name = ""
    · rcases h2 with h2 | h2 <;> simp [h1, h2]
    · push_neg at h2
      simp [h1, h2.1, h2.2]
  · simp [h1]

theorem foldl_unsavedFilesStep (buffers : List VimBuffer)
    (a : List UnsavedFile) (ch fh : List String) :
    buffers.foldl unsavedFilesStep (a, ch, fh) =
      (a ++ (buffers.filter qualifyingBuffer).map bufferSnapshot,
       ch ++ (buffers.filter qualifyingBuffer).map joinedContents,
       fh ++ (buffers.filter qualifyingBuffer).map VimBuffer.name) := by
  induction buffers generalizing a ch fh with
  | nil => simp
  | cons b bs ih =>
    rw [List.foldl_cons, unsavedFilesStep_eq]
    by_cases hq : qualifyingBuffer b
    · rw [if_pos hq, ih]
      simp [hq]
    · rw [if_neg hq, ih]
      simp [hq]

theorem GetUnsavedFilesVector_eq (buffers : List VimBuffer) :
    GetUnsavedFilesVector buffers =
      ((buffers.filter qualifyingBuffer).map bufferSnapshot,
       (buffers.filter qualifyingBuffer).map joinedContents,
       (buffers.filter qualifyingBuffer).map VimBuffer.name) := by
  unfold GetUnsavedFilesVector
  rw [foldl_unsavedFilesStep]
  simp

/-- Claim C9: the batch built by `GetUnsavedFilesVector` holds exactly one
snapshot per buffer whose filetype is supported, whose newline-joined
contents are non-empty and whose name is non-empty, in order; each included
snapshot's contents are exactly the buffer's lines joined with `"\n"`; hence
the batch size is the number of qualifying buffers. -/
theorem claim_C9 (buffers : List VimBuffer) :
    (GetUnsavedFilesVector buffers).1 =
      (buffers.filter qualifyingBuffer).map bufferSnapshot ∧
    (∀ buffer, (bufferSnapshot buffer).contents_ =
      String.intercalate "\n" buffer.lines) ∧
    (GetUnsavedFilesVector buffers).1.length =
      buffers.countP qualifyingBuffer := by
  refine ⟨by rw [GetUnsavedFilesVector_eq], fun _ => rfl, ?_⟩
  rw [GetUnsavedFilesVector_eq]
  simp [List.countP_eq_length_filter]

/-- A `ycm_core` diagnostic, with the attributes the source reads. -/
structure Diagnostic where
  filename_ : String
  line_number_ : Nat
  column_number_ : Int
  text_ : String
  kind_ : String
  long_formatted_text_ : String
deriving Repr, DecidableEq

/-- The inner `defaultdict(list)` of the diagnostic structure: an ordered
association list from line number to the diagnostics appended for it
(Python dictionaries preserve insertion order). -/
abbrev InnerDiagMap := List (Nat × List Diagnostic)

/-- `defaultdict(lambda : defaultdict(list))`: ordered association list from
filename to inner map. -/
abbrev DiagStore := List (String × InnerDiagMap)

/-- `structure[ file ][ line ].append( diagnostic )` on the inner map: append
to the entry if the line key is present, otherwise the `defaultdict` creates
the entry (at the end, preserving insertion order). -/
def innerAppend (m : InnerDiagMap) (line : Nat) (diagnostic : Diagnostic) :
    InnerDiagMap :=
  match m with
  | [] => [(line, [diagnostic])]
  | (l, ds) :: rest =>
    if l = line then (l, ds ++ [diagnostic]) :: rest
    else (l, ds) :: innerAppend rest line diagnostic

/-- `structure[ file ][ line ].append( diagnostic )` on the outer map. -/
def outerAppend (store : DiagStore) (file : String) (line : Nat)
    (diagnostic : Diagnostic) : DiagStore :=
  match store with
  | [] => [(file, innerAppend [] line diagnostic)]
  | (f, m) :: rest =>
    if f = file then (f, innerAppend m line diagnostic) :: rest
    else (f, m) :: outerAppend rest file line diagnostic

/-- `DiagnosticsToDiagStructure( diagnostics )`: fold the append over the
diagnostics in engine order, starting from an empty structure. -/
def DiagnosticsToDiagStructure (diagnostics : List Diagnostic) : DiagStore :=
  diagnostics.foldl
    (fun st diagnostic =>
      outerAppend st diagnostic.filename_ diagnostic.line_number_ diagnostic)
    []

/-- Reading `m[ line ]` on a `defaultdict(list)`: returns the stored list and
the (possibly extended) map — a missing key is inserted with value `[]` as a
side effect of the lookup. -/
def innerGetDefault (m : InnerDiagMap) (line : Nat) :
    List Diagnostic × InnerDiagMap :=
  match m with
  | [] => ([], [(line, [])])
  | (l, ds) :: rest =>
    if l = line then (ds, (l, ds) :: rest)
    else
      let r := innerGetDefault rest line
      (r.1, (l, ds) :: r.2)

/-- Reading `store[ file ][ line ]` on the nested defaultdicts: both lookups
insert empty entries for missing keys. -/
def storeGet (store : DiagStore) (file : String) (line : Nat) :
    List Diagnostic × DiagStore :=
  match store with
  | [] => ([], [(file, [(line, [])])])
  | (f, m) :: rest =>
    if f = file then
      ((innerGetDefault m line).1, (f, (innerGetDefault m line).2) :: rest)
    else
      let r := storeGet rest file line
      (r.1, (f, m) :: r.2)

/-- A `ycm_core.CompletionData` result, with the accessors the source calls. -/
structure CompletionData where
  textToInsertInBuffer : String
  mainCompletionText : String
  extraMenuInfo : String
  kind_ : String
  detailedInfoForPreviewWindow : String
deriving Repr, DecidableEq

/-- The vim `complete-items` dictionary built by `CompletionDataToDict`. -/
structure CompletionDict where
  word : String
  abbr : String
  menu : String
  kind : String
  info : String
  dup : Nat
deriving Repr, DecidableEq

/-- `CompletionDataToDict( completion_data )`. -/
def CompletionDataToDict (completion_data : CompletionData) : CompletionDict :=
  { word := completion_data.textToInsertInBuffer,
    abbr := completion_data.mainCompletionText,
    menu := completion_data.extraMenuInfo,
    kind := completion_data.kind_,
    info := completion_data.detailedInfoForPreviewWindow,
    dup := 1 }

/-- The record of one `UpdateTranslationUnitAsync` dispatch: its arguments.
The stored `parse_future` is identified with the dispatch it came from;
readiness of its result is supplied by the environment when polled. -/
structure ParseDispatch where
  filename : String
  files : List UnsavedFile
  flags : List String
deriving Repr, DecidableEq

/-- The record of one `CandidatesForQueryAndLocationInFileAsync` dispatch. -/
structure CompletionDispatch where
  query : String
  filename : String
  line : Nat
  column : Int
  files : List UnsavedFile
  flags : List String
deriving Repr, DecidableEq

/-- The external collaborators (vim, `ycm_core.ClangCompleter`, `Flags`) and
the module-level configuration, read-only during one method call. -/
structure Env where
  currentBufferName : String
  numLinesInCurrentBuffer : Nat
  unsavedBuffers : List VimBuffer
  updatingTranslationUnit : String → Bool
  flagsForFile : String → List String
  resultsReady : Bool
  diagnosticsForFile : String → List Diagnostic
  maxDiagnosticsToDisplay : Nat
  bufnr : String → Int
  cursorLine : Nat
  completionStartColumn : Int
  currentLine0 : Nat
  currentColumn0 : Nat
  getResults : CompletionDispatch → List CompletionData

/-- The vim quickfix dictionary built by `DiagnosticToDict`; the `bufnr`
lookup is delegated to the environment. -/
structure DiagnosticDict where
  bufnr : Int
  lnum : Nat
  col : Int
  text : String
  type : String
  valid : Nat
deriving Repr, DecidableEq

/-- `DiagnosticToDict( diagnostic )`. -/
def DiagnosticToDict (env : Env) (diagnostic : Diagnostic) : DiagnosticDict :=
  { bufnr := env.bufnr diagnostic.filename_,
    lnum := diagnostic.line_number_,
    col := diagnostic.column_number_,
    text := diagnostic.text_,
    type := diagnostic.kind_,
    valid := 1 }

/-- The mutable attributes of a `ClangCompleter` instance.  `__init__` never
sets `completions_future` or `diagnostic_store`, so those two are wrapped in
an outer `Option` whose `none` means "attribute absent" (reading it raises
`AttributeError`); for `completions_future`, `some none` is the attribute
set to Python `None`. -/
structure ClangCompleterState where
  contents_holder : List String
  filename_holder : List String
  last_prepared_diagnostics : List DiagnosticDict
  parse_future : Option ParseDispatch
  completions_future : Option (Option CompletionDispatch)
  diagnostic_store : Option DiagStore
deriving Repr, DecidableEq

/-- `ClangCompleter.__init__`: the attributes it assigns, and only those. -/
def clangCompleterInit : ClangCompleterState :=
  { contents_holder := [], filename_holder := [], last_prepared_diagnostics := [],
    parse_future := none, completions_future := none, diagnostic_store := none }

/-- `OnFileReadyToParse`.  Returns the new state and the dispatched
translation-unit update, if any. -/
def OnFileReadyToParse (env : Env) (s : ClangCompleterState) :
    ClangCompleterState × Option ParseDispatch :=
  if env.numLinesInCurrentBuffer < 5 then
    ({ s with parse_future := none }, none)
  else if env.updatingTranslationUnit env.currentBufferName then
    (s, none)
  else if env.flagsForFile env.currentBufferName = [] then
    ({ s with parse_future := none }, none)
  else
    ({ s with
        contents_holder := (GetUnsavedFilesVector env.unsavedBuffers).2.1,
        filename_holder := (GetUnsavedFilesVector env.unsavedBuffers).2.2,
        parse_future := some ⟨env.currentBufferName,
          (GetUnsavedFilesVector env.unsavedBuffers).1,
          env.flagsForFile env.currentBufferName⟩ },
     some ⟨env.currentBufferName, (GetUnsavedFilesVector env.unsavedBuffers).1,
       env.flagsForFile env.currentBufferName⟩)

/-- `CandidatesForQueryAsync( query )`.  Returns the new state, the messages
posted via `vimsupport.PostVimMessage`, and the dispatched completion query,
if any.  On the guard paths `self.completions_future` is set to `None` and
nothing is dispatched; on an empty query a fresh snapshot batch is built
(reassigning the holder lists), otherwise an empty `UnsavedFileVec` is
passed and the holders are untouched. -/
def CandidatesForQueryAsync (env : Env) (s : ClangCompleterState)
    (query : String) : ClangCompleterState × List String × Option CompletionDispatch :=
  if env.updatingTranslationUnit env.currentBufferName then
    ({ s with completions_future := some none },
     ["Still parsing file, no completions yet."], none)
  else if env.flagsForFile env.currentBufferName = [] then
    ({ s with completions_future := some none },
     ["Still no compile flags, no completions yet."], none)
  else if query = "" then
    ({ s with
        contents_holder := (GetUnsavedFilesVector env.unsavedBuffers).2.1,
        filename_holder := (GetUnsavedFilesVector env.unsavedBuffers).2.2,
        completions_future := some (some ⟨query, env.currentBufferName,
          env.cursorLine, env.completionStartColumn + 1,
          (GetUnsavedFilesVector env.unsavedBuffers).1,
          env.flagsForFile env.currentBufferName⟩) },
     [],
     some ⟨query, env.currentBufferName, env.cursorLine,
       env.completionStartColumn + 1,
       (GetUnsavedFilesVector env.unsavedBuffers).1,
       env.flagsForFile env.currentBufferName⟩)
  else
    ({ s with completions_future := some (some ⟨query, env.currentBufferName,
        env.cursorLine, env.completionStartColumn + 1, [],
        env.flagsForFile env.currentBufferName⟩) },
     [],
     some ⟨query, env.currentBufferName, env.cursorLine,
       env.completionStartColumn + 1, [],
       env.flagsForFile env.currentBufferName⟩)

/-- `CandidatesFromStoredRequest`.  Reading `self.completions_future` on an
instance whose attribute was never assigned raises `AttributeError`
(modelled as `Except.error`); if it is `None` the guard returns `[]`.
Otherwise the stored request is joined, mapped with `CompletionDataToDict`,
and a notice is posted when the mapped list is empty. -/
def CandidatesFromStoredRequest (env : Env) (s : ClangCompleterState) :
    Except String (List CompletionDict × List String) :=
  match s.completions_future with
  | none =>
    Except.error "AttributeError: ClangCompleter instance has no attribute completions_future"
  | some none => Except.ok ([], [])
  | some (some request) =>
    Except.ok ((env.getResults request).map CompletionDataToDict,
      if (env.getResults request).map CompletionDataToDict = [] then
        ["No completions found; errors in the file?"]
      else [])

/-- `DiagnosticsForCurrentFileReady`. -/
def DiagnosticsForCurrentFileReady (env : Env) (s : ClangCompleterState) : Bool :=
  match s.parse_future with
  | none => false
  | some _ => env.resultsReady

/-- `GetDiagnosticsForCurrentFile`.  Returns the new state and the returned
diagnostic list. -/
def GetDiagnosticsForCurrentFile (env : Env) (s : ClangCompleterState) :
    ClangCompleterState × List DiagnosticDict :=
  if DiagnosticsForCurrentFileReady env s then
    ({ s with
        diagnostic_store := some (DiagnosticsToDiagStructure
          (env.diagnosticsForFile env.currentBufferName)),
        last_prepared_diagnostics :=
          ((env.diagnosticsForFile env.currentBufferName).take
            env.maxDiagnosticsToDisplay).map (DiagnosticToDict env),
        parse_future := none },
     ((env.diagnosticsForFile env.currentBufferName).take
        env.maxDiagnosticsToDisplay).map (DiagnosticToDict env))
  else (s, s.last_prepared_diagnostics)

/-- The observable outcome of `ShowDetailedDiagnostic`: a transient message
posted via `PostVimMessage`, a diagnostic text echoed via `EchoText`, or a
raised `AttributeError` (reading a never-assigned attribute, or reading
`long_formatted_text_` on `None` when no diagnostic came within distance
998). -/
inductive ShowDiagnosticOutcome where
  | postedMessage (msg : String)
  | echoedText (text : String)
  | attributeError
deriving Repr, DecidableEq

/-- The loop body of the nearest-diagnostic scan: the accumulator is
`(closest_diagnostic, distance_to_closest_diagnostic)`, replaced only on a
strictly smaller absolute column distance. -/
def closestStep (current_column : Int) (acc : Option Diagnostic × Nat)
    (diagnostic : Diagnostic) : Option Diagnostic × Nat :=
  if (current_column - diagnostic.column_number_).natAbs < acc.2 then
    (some diagnostic, (current_column - diagnostic.column_number_).natAbs)
  else acc

/-- `ShowDetailedDiagnostic`.  The 0-based cursor position from
`vimsupport.CurrentLineAndColumn()` is converted to 1-based; the store
lookup `self.diagnostic_store[ current_file ][ current_line ]` mutates the
defaultdicts, so the (possibly extended) store is written back into the
state.  The scan starts from `(None, 999)`. -/
def ShowDetailedDiagnostic (env : Env) (s : ClangCompleterState) :
    ShowDiagnosticOutcome × ClangCompleterState :=
  match s.diagnostic_store with
  | none => (ShowDiagnosticOutcome.attributeError, s)
  | some store =>
    let current_line := env.currentLine0 + 1
    let current_column : Int := (env.currentColumn0 : Int) + 1
    let looked := storeGet store env.currentBufferName current_line
    let s' := { s with diagnostic_store := some looked.2 }
    if looked.1 = [] then
      (ShowDiagnosticOutcome.postedMessage "No diagnostic for current line!", s')
    else
      match (looked.1.foldl (closestStep current_column) (none, 999)).1 with
      | some closest_diagnostic =>
        (ShowDiagnosticOutcome.echoedText closest_diagnostic.long_formatted_text_, s')
      | none => (ShowDiagnosticOutcome.attributeError, s')

/-- Claim C4: `OnFileReadyToParse` dispatches an asynchronous
translation-unit update iff the buffer has at least 5 lines, no parse for
the file is in flight, and the flags are non-empty; fewer than 5 lines
clears the pending parse handle and dispatches nothing; a parse already in
flight makes it a no-op leaving the state unchanged; absent flags (reached
when the other guards pass) clear the handle and dispatch nothing. -/
theorem claim_C4 (env : Env) (s : ClangCompleterState) :
    ((OnFileReadyToParse env s).2.isSome = true ↔
      (5 ≤ env.numLinesInCurrentBuffer ∧
        env.updatingTranslationUnit env.currentBufferName = false ∧
        env.flagsForFile env.currentBufferName ≠ [])) ∧
    (env.numLinesInCurrentBuffer < 5 →
      OnFileReadyToParse env s = ({ s with parse_future := none }, none)) ∧
    (5 ≤ env.numLinesInCurrentBuffer →
      env.updatingTranslationUnit env.currentBufferName = true →
      OnFileReadyToParse env s = (s, none)) ∧
    (5 ≤ env.numLinesInCurrentBuffer →
      env.updatingTranslationUnit env.currentBufferName = false →
      env.flagsForFile env.currentBufferName = [] →
      OnFileReadyToParse env s = ({ s with parse_future := none }, none)) := by
  refine ⟨?_, ?_, ?_, ?_⟩
  · by_cases h1 : env.numLinesInCurrentBuffer < 5
    · simp only [OnFileReadyToParse, if_pos h1, Option.isSome_none]
      constructor
      · intro h; exact absurd h Bool.false_ne_true
      · rintro ⟨h5, -, -⟩; omega
    · by_cases h2 : env.updatingTranslationUnit env.currentBufferName = true
      · simp only [OnFileReadyToParse, if_neg h1, if_pos h2, Option.isSome_none]
        constructor
        · intro h; exact absurd h Bool.false_ne_true
        · rintro ⟨-, hupd, -⟩; simp [h2] at hupd
      · by_cases h3 : env.flagsForFile env.currentBufferName = []
        · simp only [OnFileReadyToParse, if_neg h1, if_neg h2, if_pos h3,
            Option.isSome_none]
          constructor
          · intro h; exact absurd h Bool.false_ne_true
          · rintro ⟨-, -, hfl⟩; exact (hfl h3).elim
        · simp only [OnFileReadyToParse, if_neg h1, if_neg h2, if_neg h3,
            Option.isSome_some]
          constructor
          · intro _; exact ⟨by omega, by simpa using h2, h3⟩
          · intro _; trivial
  · intro h1
    simp only [OnFileReadyToParse, if_pos h1]
  · intro h5 h2
    have h1 : ¬ env.numLinesInCurrentBuffer < 5 := by omega
    simp only [OnFileReadyToParse, if_neg h1, if_pos h2]
  · intro h5 h2 h3
    have h1 : ¬ env.numLinesInCurrentBuffer < 5 := by omega
    have h2' : ¬ env.updatingTranslationUnit env.currentBufferName = true := by
      simp [h2]
    simp only [OnFileReadyToParse, if_neg h1, if_neg h2', if_pos h3]

/-- An environment in which the flags collaborator has no flags for any
file and the current buffer has 4 lines; used to instantiate guard-path
theorems. -/
def envNoFlags : Env :=
  { currentBufferName := "a.cpp"
    numLinesInCurrentBuffer := 4
    unsavedBuffers := []
    updatingTranslationUnit := fun _ => false
    flagsForFile := fun _ => []
    resultsReady := false
    diagnosticsForFile := fun _ => []
    maxDiagnosticsToDisplay := 10
    bufnr := fun _ => 1
    cursorLine := 1
    completionStartColumn := 0
    currentLine0 := 0
    currentColumn0 := 0
    getResults := fun _ => [] }

/-- An environment in which a parse of the current file is in flight. -/
def envParsing : Env :=
  { envNoFlags with
    numLinesInCurrentBuffer := 6
    updatingTranslationUnit := fun _ => true }

theorem claim_C4_witness :
    envNoFlags.numLinesInCurrentBuffer < 5 ∧
      OnFileReadyToParse envNoFlags clangCompleterInit =
        ({ clangCompleterInit with parse_future := none }, none) :=
  ⟨by decide, (claim_C4 envNoFlags clangCompleterInit).2.1 (by decide)⟩

/-- Claim C5: `CandidatesForQueryAsync` called while a parse of the file is
in flight, or while the flags collaborator returns no flags, dispatches no
completion query, posts the corresponding notice, and returns having set
`completions_future` to `None` (no exception is modelled: the function is
total). -/
theorem claim_C5 (env : Env) (s : ClangCompleterState) (query : String) :
    (env.updatingTranslationUnit env.currentBufferName = true →
      CandidatesForQueryAsync env s query =
        ({ s with completions_future := some none },
         ["Still parsing file, no completions yet."], none)) ∧
    (env.updatingTranslationUnit env.currentBufferName = false →
      env.flagsForFile env.currentBufferName = [] →
      CandidatesForQueryAsync env s query =
        ({ s with completions_future := some none },
         ["Still no compile flags, no completions yet."], none)) := by
  constructor
  · intro h2
    simp only [CandidatesForQueryAsync, if_pos h2]
  · intro h2 h3
    have h2' : ¬ env.updatingTranslationUnit env.currentBufferName = true := by
      simp [h2]
    simp only [CandidatesForQueryAsync, if_neg h2', if_pos h3]

theorem claim_C5_witness :
    envParsing.updatingTranslationUnit envParsing.currentBufferName = true ∧
      CandidatesForQueryAsync envParsing clangCompleterInit "" =
        ({ clangCompleterInit with completions_future := some none },
         ["Still parsing file, no completions yet."], none) :=
  ⟨by decide, (claim_C5 envParsing clangCompleterInit "").1 (by decide)⟩

/-- Claim C7: on a freshly constructed `ClangCompleter`, on which no
completion request was ever issued, `__init__` never assigned
`completions_future`, so `CandidatesFromStoredRequest` raises
`AttributeError` instead of returning the empty list; the `[]` return is
reached only once the attribute has been assigned `None` by a guard path of
`CandidatesForQueryAsync`. -/
theorem claim_C7 (env : Env) :
    CandidatesFromStoredRequest env clangCompleterInit =
      Except.error "AttributeError: ClangCompleter instance has no attribute completions_future" ∧
    CandidatesFromStoredRequest env
        { clangCompleterInit with completions_future := some none } =
      Except.ok ([], []) :=
  ⟨rfl, rfl⟩

/-- Claim C8: `GetDiagnosticsForCurrentFile` with a ready pending parse
rebuilds the diagnostic structure, caches and returns the mapped list
truncated to the configured maximum, and clears the pending parse handle;
when not ready (including when no pending parse exists) it returns the
cached list with no state change.  The returned list is capped whenever it
is freshly consumed. -/
theorem claim_C8 (env : Env) (s : ClangCompleterState) :
    (DiagnosticsForCurrentFileReady env s = true →
      GetDiagnosticsForCurrentFile env s =
        ({ s with
            diagnostic_store := some (DiagnosticsToDiagStructure
              (env.diagnosticsForFile env.currentBufferName)),
            last_prepared_diagnostics :=
              ((env.diagnosticsForFile env.currentBufferName).take
                env.maxDiagnosticsToDisplay).map (DiagnosticToDict env),
            parse_future := none },
         ((env.diagnosticsForFile env.currentBufferName).take
            env.maxDiagnosticsToDisplay).map (DiagnosticToDict env))) ∧
    (DiagnosticsForCurrentFileReady env s = false →
      GetDiagnosticsForCurrentFile env s = (s, s.last_prepared_diagnostics)) ∧
    (DiagnosticsForCurrentFileReady env s = true →
      (GetDiagnosticsForCurrentFile env s).2.length ≤
        env.maxDiagnosticsToDisplay) := by
  refine ⟨?_, ?_, ?_⟩
  · intro h
    simp only [GetDiagnosticsForCurrentFile, if_pos h]
  · intro h
    have h' : ¬ DiagnosticsForCurrentFileReady env s = true := by simp [h]
    simp only [GetDiagnosticsForCurrentFile, if_neg h']
  · intro h
    simp only [GetDiagnosticsForCurrentFile, if_pos h, List.length_map,
      List.length_take]
    omega

/-- An environment holding one completed parse result with two diagnostics
for the current file. -/
def diagA : Diagnostic :=
  { filename_ := "a.cpp", line_number_ := 3, column_number_ := 2
    text_ := "expected ;", kind_ := "E", long_formatted_text_ := "long a" }

def diagB : Diagnostic :=
  { filename_ := "a.cpp", line_number_ := 3, column_number_ := 10
    text_ := "unknown type", kind_ := "E", long_formatted_text_ := "long b" }

def envReady : Env :=
  { envNoFlags with
    resultsReady := true
    diagnosticsForFile := fun _ => [diagA, diagB] }

/-- A state with a pending parse for the current file. -/
def statePendingParse : ClangCompleterState :=
  { clangCompleterInit with
    parse_future := some ⟨"a.cpp", [], ["-Wall"]⟩ }

theorem claim_C8_witness :
    DiagnosticsForCurrentFileReady envReady statePendingParse = true ∧
      GetDiagnosticsForCurrentFile envReady statePendingParse =
        ({ statePendingParse with
            diagnostic_store := some (DiagnosticsToDiagStructure
              (envReady.diagnosticsForFile envReady.currentBufferName)),
            last_prepared_diagnostics :=
              ((envReady.diagnosticsForFile envReady.currentBufferName).take
                envReady.maxDiagnosticsToDisplay).map (DiagnosticToDict envReady),
            parse_future := none },
         ((envReady.diagnosticsForFile envReady.currentBufferName).take
            envReady.maxDiagnosticsToDisplay).map (DiagnosticToDict envReady)) :=
  ⟨rfl, (claim_C8 envReady statePendingParse).1 rfl⟩

/-- A single open C++ buffer whose contents the first dispatch snapshots. -/
def bufX : VimBuffer := { lines := ["int x;"], name := "a.cpp", filetype := "cpp" }

/-- A different buffer, open when the second batch is built. -/
def bufY : VimBuffer :=
  { lines := ["a", "b", "c", "d", "e", "f"], name := "b.cpp", filetype := "cpp" }

/-- Environment for the first step: flags available, no parse in flight,
`bufX` is the only unsaved buffer. -/
def envStep1 : Env :=
  { envNoFlags with
    flagsForFile := fun _ => ["-Wall"]
    unsavedBuffers := [bufX] }

/-- Environment for the second step: the current buffer is now `b.cpp` with
6 lines, so `OnFileReadyToParse` passes all guards and rebuilds the
snapshot batch while the completion dispatched in step one is still
outstanding. -/
def envStep2 : Env :=
  { envStep1 with
    currentBufferName := "b.cpp"
    numLinesInCurrentBuffer := 6
    unsavedBuffers := [bufY] }

def stateAfterStep1 : ClangCompleterState :=
  (CandidatesForQueryAsync envStep1 clangCompleterInit "").1

def stateAfterStep2 : ClangCompleterState :=
  (OnFileReadyToParse envStep2 stateAfterStep1).1

/-- Claim C2 (refuted by the code): after `CandidatesForQueryAsync` with an
empty query snapshots buffer `a.cpp` (contents `"int x;"`), a subsequent
`OnFileReadyToParse` rebuilds the holder lists.  The completion dispatched
in step one is still the stored pending operation and its snapshot batch
still references the string `"int x;"`, yet neither `contents_holder` nor
`filename_holder` retains that string any more: the only owning references
to the previous batch's storage are dropped while the consuming call is
outstanding, contradicting the retention guarantee the claim (and the
source's own comment) states. -/
theorem claim_C2_theorem :
    stateAfterStep2.completions_future =
      some (some ⟨"", "a.cpp", 1, 1, [⟨"int x;", 6, "a.cpp"⟩], ["-Wall"]⟩) ∧
    stateAfterStep2.contents_holder = ["a\nb\nc\nd\ne\nf"] ∧
    "int x;" ∉ stateAfterStep2.contents_holder ∧
    "int x;" ∉ stateAfterStep2.filename_holder := by
  refine ⟨by decide, by decide, by decide, by decide⟩

theorem innerGetDefault_innerAppend (m : InnerDiagMap) (la lb : Nat)
    (d : Diagnostic) :
    (innerGetDefault (innerAppend m la d) lb).1 =
      (innerGetDefault m lb).1 ++ (if la = lb then [d] else []) := by
  induction m with
  | nil =>
    by_cases h : la = lb
    · simp [innerAppend, innerGetDefault, h]
    · simp [innerAppend, innerGetDefault, h]
  | cons p rest ih =>
    obtain ⟨k, ds⟩ := p
    by_cases hka : k = la
    · subst hka
      by_cases hkb : k = lb
      · subst hkb
        simp [innerAppend, innerGetDefault]
      · simp [innerAppend, innerGetDefault, hkb]
    · by_cases hkb : k = lb
      · subst hkb
        have hne : ¬ la = k := fun h => hka h.symm
        simp [innerAppend, innerGetDefault, hka, hne]
      · simp [innerAppend, innerGetDefault, hka, hkb, ih]

theorem storeGet_outerAppend (store : DiagStore) (fa fb : String) (la lb : Nat)
    (d : Diagnostic) :
    (storeGet (outerAppend store fa la d) fb lb).1 =
      (storeGet store fb lb).1 ++
        (if fa = fb ∧ la = lb then [d] else []) := by
  induction store with
  | nil =>
    by_cases hf : fa = fb
    · subst hf
      by_cases hl : la = lb
      · simp [outerAppend, storeGet, innerAppend, innerGetDefault, hl]
      · simp [outerAppend, storeGet, innerAppend, innerGetDefault, hl]
    · simp [outerAppend, storeGet, innerGetDefault, hf]
  | cons p rest ih =>
    obtain ⟨g, m⟩ := p
    by_cases hga : g = fa
    · subst hga
      by_cases hgb : g = fb
      · subst hgb
        simp [outerAppend, storeGet, innerGetDefault_innerAppend]
      · have hnc : ¬ (g = fb ∧ la = lb) := fun h => hgb h.1
        simp [outerAppend, storeGet, hgb, hnc]
    · by_cases hgb : g = fb
      · subst hgb
        have hnc : ¬ (fa = g ∧ la = lb) := fun h => hga h.1.symm
        simp [outerAppend, storeGet, hga, hnc]
      · simp [outerAppend, storeGet, hga, hgb, ih]

theorem storeGet_foldl_outerAppend (diagnostics : List Diagnostic)
    (store : DiagStore) (f : String) (l : Nat) :
    (storeGet (diagnostics.foldl
        (fun st diagnostic =>
          outerAppend st diagnostic.filename_ diagnostic.line_number_ diagnostic)
        store) f l).1 =
      (storeGet store f l).1 ++
        diagnostics.filter
          (fun d => d.filename_ == f && d.line_number_ == l) := by
  induction diagnostics generalizing store with
  | nil => simp
  | cons d rest ih =>
    rw [List.foldl_cons, ih, storeGet_outerAppend]
    by_cases hp : d.filename_ = f ∧ d.line_number_ = l
    · rw [if_pos hp]
      simp [List.filter_cons, hp.1, hp.2]
    · rw [if_neg hp]
      have : ¬ (d.filename_ == f && d.line_number_ == l) = true := by
        simp only [Bool.and_eq_true, beq_iff_eq]
        exact hp
      simp [List.filter_cons, this]

/-- Claim C6: for every parse result, looking up `(file, line)` in the
structure built by `DiagnosticsToDiagStructure` returns exactly the
diagnostics of that parse whose filename and line match, in engine order
(missing lines give `[]`); and consuming a completed parse replaces the
whole stored structure with the one built from the fresh parse alone, so
entries of a prior parse never survive. -/
theorem claim_C6 :
    (∀ (diagnostics : List Diagnostic) (f : String) (l : Nat),
      (storeGet (DiagnosticsToDiagStructure diagnostics) f l).1 =
        diagnostics.filter
          (fun d => d.filename_ == f && d.line_number_ == l)) ∧
    (∀ (env : Env) (s : ClangCompleterState),
      DiagnosticsForCurrentFileReady env s = true →
      (GetDiagnosticsForCurrentFile env s).1.diagnostic_store =
        some (DiagnosticsToDiagStructure
          (env.diagnosticsForFile env.currentBufferName))) := by
  constructor
  · intro diagnostics f l
    unfold DiagnosticsToDiagStructure
    rw [storeGet_foldl_outerAppend]
    rfl
  · intro env s h
    simp only [GetDiagnosticsForCurrentFile, if_pos h]

/-- The spec's DiagnosticIndex example: two diagnostics on line 3 and one on
line 7 of `a.cpp`. -/
def diagL3a : Diagnostic :=
  { filename_ := "a.cpp", line_number_ := 3, column_number_ := 1
    text_ := "t1", kind_ := "E", long_formatted_text_ := "l1" }

def diagL3b : Diagnostic :=
  { filename_ := "a.cpp", line_number_ := 3, column_number_ := 4
    text_ := "t2", kind_ := "E", long_formatted_text_ := "l2" }

def diagL7 : Diagnostic :=
  { filename_ := "a.cpp", line_number_ := 7, column_number_ := 1
    text_ := "t3", kind_ := "E", long_formatted_text_ := "l3" }

theorem claim_C6_witness :
    (storeGet (DiagnosticsToDiagStructure [diagL3a, diagL3b, diagL7]) "a.cpp" 3).1 =
      [diagL3a, diagL3b] ∧
    (storeGet (DiagnosticsToDiagStructure [diagL3a, diagL3b, diagL7]) "a.cpp" 99).1 =
      [] ∧
    (storeGet (DiagnosticsToDiagStructure [diagL3a, diagL3b]) "a.cpp" 7).1 = [] ∧
    DiagnosticsForCurrentFileReady envReady statePendingParse = true ∧
      (GetDiagnosticsForCurrentFile envReady statePendingParse).1.diagnostic_store =
        some (DiagnosticsToDiagStructure
          (envReady.diagnosticsForFile envReady.currentBufferName)) := by
  refine ⟨?_, ?_, ?_, rfl, claim_C6.2 envReady statePendingParse rfl⟩
  · rw [claim_C6.1 [diagL3a, diagL3b, diagL7] "a.cpp" 3]; decide
  · rw [claim_C6.1 [diagL3a, diagL3b, diagL7] "a.cpp" 99]; decide
  · rw [claim_C6.1 [diagL3a, diagL3b] "a.cpp" 7]; decide

/-- The selector the claim describes: the first diagnostic in the list
achieving the minimal absolute distance between its column and the cursor
column (a later element replaces the current best only when strictly
closer). -/
def claimedClosest (current_column : Int) : List Diagnostic → Option Diagnostic
  | [] => none
  | d :: rest =>
    match claimedClosest current_column rest with
    | none => some d
    | some d' =>
      if (current_column - d'.column_number_).natAbs <
          (current_column - d.column_number_).natAbs then some d'
      else some d

theorem foldl_closestStep_eq (c : Int) (ds : List Diagnostic)
    (b : Option Diagnostic) (m : Nat) :
    ds.foldl (closestStep c) (b, m) =
      match claimedClosest c ds with
      | none => (b, m)
      | some d =>
        if (c - d.column_number_).natAbs < m then
          (some d, (c - d.column_number_).natAbs)
        else (b, m) := by
  induction ds generalizing b m with
  | nil => rfl
  | cons d rest ih =>
    rw [List.foldl_cons]
    rw [show closestStep c (b, m) d =
      if (c - d.column_number_).natAbs < m then
        (some d, (c - d.column_number_).natAbs) else (b, m) from rfl]
    by_cases hd : (c - d.column_number_).natAbs < m
    · rw [if_pos hd, ih]
      cases hrest : claimedClosest c rest with
      | none => simp [claimedClosest, hrest, hd]
      | some d' =>
        by_cases hlt : (c - d'.column_number_).natAbs <
            (c - d.column_number_).natAbs
        · have hm : (c - d'.column_number_).natAbs < m := lt_trans hlt hd
          simp [claimedClosest, hrest, hlt, hd, hm]
        · simp [claimedClosest, hrest, hlt, hd]
    · rw [if_neg hd, ih]
      cases hrest : claimedClosest c rest with
      | none => simp [claimedClosest, hrest, hd]
      | some d' =>
        by_cases hlt : (c - d'.column_number_).natAbs <
            (c - d.column_number_).natAbs
        · simp [claimedClosest, hrest, hlt]
        · have hm : ¬ (c - d'.column_number_).natAbs < m := by omega
          simp [claimedClosest, hrest, hlt, hd, hm]

theorem claimedClosest_isSome (c : Int) (ds : List Diagnostic) (h : ds ≠ []) :
    ∃ b, claimedClosest c ds = some b := by
  cases ds with
  | nil => exact absurd rfl h
  | cons d rest =>
    cases hrest : claimedClosest c rest with
    | none => exact ⟨d, by simp [claimedClosest, hrest]⟩
    | some d' =>
      by_cases hlt : (c - d'.column_number_).natAbs <
          (c - d.column_number_).natAbs
      · exact ⟨d', by simp [claimedClosest, hrest, hlt]⟩
      · exact ⟨d, by simp [claimedClosest, hrest, hlt]⟩

theorem claimedClosest_eq_none (c : Int) (ds : List Diagnostic)
    (h : claimedClosest c ds = none) : ds = [] := by
  cases ds with
  | nil => rfl
  | cons d rest =>
    obtain ⟨b, hb⟩ := claimedClosest_isSome c (d :: rest) (by simp)
    rw [h] at hb
    cases hb

theorem claimedClosest_le (c : Int) :
    ∀ (ds : List Diagnostic) (b : Diagnostic), claimedClosest c ds = some b →
      ∀ d ∈ ds, (c - b.column_number_).natAbs ≤ (c - d.column_number_).natAbs := by
  intro ds
  induction ds with
  | nil => intro b hb d hd; cases hd
  | cons d0 rest ih =>
    intro b hb d hd
    cases hrest : claimedClosest c rest with
    | none =>
      have hnil := claimedClosest_eq_none c rest hrest
      subst hnil
      simp only [claimedClosest] at hb
      injection hb with hb
      subst hb
      simp only [List.mem_singleton] at hd
      subst hd
      exact le_refl _
    | some d' =>
      simp only [claimedClosest, hrest] at hb
      by_cases hlt : (c - d'.column_number_).natAbs <
          (c - d0.column_number_).natAbs
      · rw [if_pos hlt] at hb
        injection hb with hb
        subst hb
        rcases List.mem_cons.mp hd with rfl | hd'
        · exact le_of_lt hlt
        · exact ih d' hrest d hd'
      · rw [if_neg hlt] at hb
        injection hb with hb
        subst hb
        rcases List.mem_cons.mp hd with rfl | hd'
        · exact le_refl _
        · have h1 := ih d' hrest d hd'
          omega

/-- A diagnostic on the cursor's line whose column is more than 998 away
from the cursor column. -/
def diagFar : Diagnostic :=
  { filename_ := "a.cpp", line_number_ := 3, column_number_ := 1006
    text_ := "far", kind_ := "E", long_formatted_text_ := "far long" }

/-- Cursor at 0-based line 2, column 5 — 1-based line 3, column 6. -/
def envShow6 : Env := { envNoFlags with currentLine0 := 2, currentColumn0 := 5 }

/-- Cursor at 0-based line 2, column 8 — 1-based line 3, column 9. -/
def envShow9 : Env := { envNoFlags with currentLine0 := 2, currentColumn0 := 8 }

def stateFar : ClangCompleterState :=
  { clangCompleterInit with
    diagnostic_store := some (DiagnosticsToDiagStructure [diagFar]) }

/-- Claim C3 (counterexample): with a single diagnostic at column 1006 on
the cursor's line and 1-based cursor column 6, the scan's initial best
distance of 999 is never strictly improved (|6 − 1006| = 1000), so
`closest_diagnostic` stays `None` and the method raises `AttributeError`
(`None.long_formatted_text_`) instead of displaying the first
minimal-distance diagnostic as the claim states. -/
theorem claim_C3_counterexample :
    (ShowDetailedDiagnostic envShow6 stateFar).1 =
      ShowDiagnosticOutcome.attributeError ∧
    ¬ (ShowDetailedDiagnostic envShow6 stateFar).1 =
        ShowDiagnosticOutcome.echoedText diagFar.long_formatted_text_ := by
  refine ⟨by decide, by decide⟩

/-- Claim C3 (amended): for every non-empty list of diagnostics indexed on
the current line, provided at least one of them has absolute column
distance below the scan's initial bound 999, `ShowDetailedDiagnostic`
echoes the long-form text of the first diagnostic in the list achieving
the minimal absolute distance — a later diagnostic replaces the current
best only if its distance is strictly smaller. -/
theorem claim_C3_amended (env : Env) (s : ClangCompleterState)
    (store : DiagStore) (ds : List Diagnostic)
    (hstore : s.diagnostic_store = some store)
    (hds : (storeGet store env.currentBufferName (env.currentLine0 + 1)).1 = ds)
    (hne : ds ≠ [])
    (hnear : ∃ d ∈ ds,
      ((env.currentColumn0 : Int) + 1 - d.column_number_).natAbs < 999) :
    ∃ b, claimedClosest ((env.currentColumn0 : Int) + 1) ds = some b ∧
      (ShowDetailedDiagnostic env s).1 =
        ShowDiagnosticOutcome.echoedText b.long_formatted_text_ := by
  obtain ⟨b, hb⟩ := claimedClosest_isSome ((env.currentColumn0 : Int) + 1) ds hne
  refine ⟨b, hb, ?_⟩
  obtain ⟨ch, fh, lpd, pf, cf, dstore⟩ := s
  simp only at hstore
  subst hstore
  simp only [ShowDetailedDiagnostic]
  rw [hds, if_neg hne, foldl_closestStep_eq, hb]
  obtain ⟨d0, hd0, hlt⟩ := hnear
  have hle := claimedClosest_le ((env.currentColumn0 : Int) + 1) ds b hb d0 hd0
  have hblt : ((env.currentColumn0 : Int) + 1 - b.column_number_).natAbs < 999 :=
    lt_of_le_of_lt hle hlt
  simp [hblt]

def stateAB : ClangCompleterState :=
  { clangCompleterInit with
    diagnostic_store := some (DiagnosticsToDiagStructure [diagA, diagB]) }

theorem claim_C3_witness :
    ((storeGet (DiagnosticsToDiagStructure [diagA, diagB])
        envShow6.currentBufferName (envShow6.currentLine0 + 1)).1 ≠ [] ∧
      ∃ d ∈ (storeGet (DiagnosticsToDiagStructure [diagA, diagB])
          envShow6.currentBufferName (envShow6.currentLine0 + 1)).1,
        ((envShow6.currentColumn0 : Int) + 1 - d.column_number_).natAbs < 999) ∧
    (∃ b, claimedClosest ((envShow6.currentColumn0 : Int) + 1)
        (storeGet (DiagnosticsToDiagStructure [diagA, diagB])
          envShow6.currentBufferName (envShow6.currentLine0 + 1)).1 = some b ∧
      (ShowDetailedDiagnostic envShow6 stateAB).1 =
        ShowDiagnosticOutcome.echoedText b.long_formatted_text_) ∧
    (ShowDetailedDiagnostic envShow6 stateAB).1 =
      ShowDiagnosticOutcome.echoedText "long a" ∧
    (ShowDetailedDiagnostic envShow9 stateAB).1 =
      ShowDiagnosticOutcome.echoedText "long b" := by
  refine ⟨⟨by decide, by decide⟩,
    claim_C3_amended envShow6 stateAB (DiagnosticsToDiagStructure [diagA, diagB])
      _ rfl rfl (by decide) (by decide), by decide, by decide⟩

theorem innerGetDefault_missing (m : InnerDiagMap) (l : Nat)
    (h : ∀ p ∈ m, p.1 ≠ l) :
    innerGetDefault m l = ([], m ++ [(l, [])]) := by
  induction m with
  | nil => rfl
  | cons p rest ih =>
    obtain ⟨k, ds⟩ := p
    have hk : k ≠ l := h (k, ds) (by simp)
    have ih' := ih (fun q hq => h q (List.mem_cons_of_mem _ hq))
    simp [innerGetDefault, hk, ih']

theorem storeGet_missing_file (store : DiagStore) (f : String) (l : Nat)
    (h : ∀ p ∈ store, p.1 ≠ f) :
    storeGet store f l = ([], store ++ [(f, [(l, [])])]) := by
  induction store with
  | nil => rfl
  | cons p rest ih =>
    obtain ⟨g, m⟩ := p
    have hg : g ≠ f := h (g, m) (by simp)
    have ih' := ih (fun q hq => h q (List.mem_cons_of_mem _ hq))
    simp [storeGet, hg, ih']

theorem storeGet_file_missing_line (pre post : DiagStore) (f : String)
    (m : InnerDiagMap) (l : Nat)
    (hpre : ∀ p ∈ pre, p.1 ≠ f) (hm : ∀ p ∈ m, p.1 ≠ l) :
    storeGet (pre ++ (f, m) :: post) f l =
      ([], pre ++ (f, m ++ [(l, [])]) :: post) := by
  induction pre with
  | nil => simp [storeGet, innerGetDefault_missing m l hm]
  | cons p rest ih =>
    obtain ⟨g, mm⟩ := p
    have hg : g ≠ f := hpre (g, mm) (by simp)
    have ih' := ih (fun q hq => hpre q (List.mem_cons_of_mem _ hq))
    simp [storeGet, hg, ih']

/-- Claim C10: `ShowDetailedDiagnostic` is not read-only on the diagnostic
store.  Because the store is built from nested defaultdicts, looking up a
filename with no recorded diagnostics appends a fresh entry for that
filename (holding an empty entry for the looked-up line), and looking up an
unrecorded line of a recorded filename appends an empty entry for that line
— in both cases the method merely posts the "no diagnostic" notice, yet the
store grows. -/
theorem claim_C10 (env : Env) (s : ClangCompleterState) (store : DiagStore)
    (hstore : s.diagnostic_store = some store) :
    ((∀ p ∈ store, p.1 ≠ env.currentBufferName) →
      (ShowDetailedDiagnostic env s).1 =
        ShowDiagnosticOutcome.postedMessage "No diagnostic for current line!" ∧
      (ShowDetailedDiagnostic env s).2.diagnostic_store =
        some (store ++
          [(env.currentBufferName, [(env.currentLine0 + 1, [])])])) ∧
    (∀ (pre post : DiagStore) (m : InnerDiagMap),
      store = pre ++ (env.currentBufferName, m) :: post →
      (∀ p ∈ pre, p.1 ≠ env.currentBufferName) →
      (∀ p ∈ m, p.1 ≠ env.currentLine0 + 1) →
      (ShowDetailedDiagnostic env s).1 =
        ShowDiagnosticOutcome.postedMessage "No diagnostic for current line!" ∧
      (ShowDetailedDiagnostic env s).2.diagnostic_store =
        some (pre ++
          (env.currentBufferName, m ++ [(env.currentLine0 + 1, [])]) :: post)) := by
  obtain ⟨ch, fh, lpd, pf, cf, dstore⟩ := s
  simp only at hstore
  subst hstore
  constructor
  · intro h
    simp only [ShowDetailedDiagnostic]
    rw [storeGet_missing_file store env.currentBufferName
      (env.currentLine0 + 1) h]
    simp
  · intro pre post m heq hpre hm
    subst heq
    simp only [ShowDetailedDiagnostic]
    rw [storeGet_file_missing_line pre post env.currentBufferName m
      (env.currentLine0 + 1) hpre hm]
    simp

/-- A diagnostic store that records only `b.cpp`, while the current buffer
is `a.cpp`. -/
def storeB : DiagStore := [("b.cpp", [(1, [])])]

def stateB : ClangCompleterState :=
  { clangCompleterInit with diagnostic_store := some storeB }

theorem claim_C10_witness :
    (∀ p ∈ storeB, p.1 ≠ envShow6.currentBufferName) ∧
      ((ShowDetailedDiagnostic envShow6 stateB).1 =
        ShowDiagnosticOutcome.postedMessage "No diagnostic for current line!" ∧
      (ShowDetailedDiagnostic envShow6 stateB).2.diagnostic_store =
        some (storeB ++
          [(envShow6.currentBufferName, [(envShow6.currentLine0 + 1, [])])])) :=
  ⟨by decide, (claim_C10 envShow6 stateB storeB rfl).1 (by decide)⟩

end ClangCompleterSpec
